import Mathlib

/-!
Shallow embedding of the vocabulary-quiz application `src/streamlit_app.py`
(repository ycheng517/blank-app).

The program is a single-page quiz: a CSV vocabulary table is loaded
(`load_data`), a multiple-choice question is generated by uniform random
sampling (`generate_question`), and a session state record (score,
question number, shown details, chosen answer) is mutated by four user
actions (start, submit, next, reset) handled in `main`.

Randomness is made explicit: every call of the Python `random` module is
modelled by parameters of the embedded function (`pick` — the row index
drawn by `df.sample(1)`; `samp` — the three list positions drawn by
`random.sample(words, 3)`; `perm` — the permutation of positions applied
by `random.shuffle`), together with the validity predicate that the
library call guarantees for its output.  A call whose validity predicate
is unsatisfiable corresponds to the library call raising (`ValueError`
from `random.sample` when the population is too small, `ValueError` from
`df.sample` on an empty frame); the embedding returns `none` there.
-/

namespace VocabQuiz

/-- One row of the vocabulary table: the four required CSV columns. -/
structure VocabEntry where
  word : String
  translation : String
  definition : String
  example_usage : String
deriving DecidableEq, Repr

/-- The triple returned by `generate_question`
(`return definition, correct_word, choices`). -/
structure Question where
  definition : String
  correct_word : String
  choices : List String
deriving DecidableEq, Repr

/-- Validity of the output of `random.sample(population, 3)` on a
population of length `n`: three pairwise-distinct positions of the
population list.  `random.sample` draws positions without replacement, so
the positions are distinct even when the values at them are equal.
No such output exists when `n < 3` (Python raises
`ValueError: Sample larger than population`). -/
def sampleOk (n : Nat) (samp : List Nat) : Prop :=
  samp.length = 3 ∧ samp.Nodup ∧ ∀ j ∈ samp, j < n

instance (n : Nat) (samp : List Nat) : Decidable (sampleOk n samp) :=
  inferInstanceAs (Decidable (samp.length = 3 ∧ samp.Nodup ∧ ∀ j ∈ samp, j < n))

/-- Validity of the output of `random.shuffle` on a 4-element list,
seen as the list of source positions: a permutation of `[0,1,2,3]`. -/
def permOk (perm : List Nat) : Prop :=
  perm.length = 4 ∧ perm.Nodup ∧ ∀ j ∈ perm, j < 4

instance (perm : List Nat) : Decidable (permOk perm) :=
  inferInstanceAs (Decidable (perm.length = 4 ∧ perm.Nodup ∧ ∀ j ∈ perm, j < 4))

/-- The question built by `generate_question` from the drawn row `pick`,
the drawn distractor positions `samp` and the shuffle permutation `perm`:
`row = df.sample(1).iloc[0]`, `choices = [correct_word] +
random.sample(df["word"].tolist(), 3)`, `random.shuffle(choices)`. -/
def mkQuestion (df : List VocabEntry) (pick : Fin df.length)
    (samp perm : List Nat) : Question :=
  let row := df.get pick
  let words := df.map (fun e => e.word)
  let choices0 := row.word :: samp.map (fun j => words.getD j "")
  { definition := row.definition
    correct_word := row.word
    choices := perm.map (fun j => choices0.getD j "") }

/-- `generate_question(df)` with the randomness explicit.  It succeeds
exactly when the random draws can exist: a row index for `df.sample(1)`
(nonempty frame) and three distinct positions for
`random.sample(..., 3)` (population of length ≥ 3); otherwise the Python
call raises and no question is produced. -/
def generate_question (df : List VocabEntry) (pick : Nat)
    (samp perm : List Nat) : Option Question :=
  if h : pick < df.length ∧ sampleOk df.length samp ∧ permOk perm then
    some (mkQuestion df ⟨pick, h.1⟩ samp perm)
  else
    none

/-! ## Vocabulary loader (`load_data`) -/

/-- The error classes of the loader, named after the spec's taxonomy.
In the code each is a distinct `st.error` branch of `load_data`:
`SourceNotFound` = `FileNotFoundError`, `EmptySource` =
`pd.errors.EmptyDataError`, `MalformedSource` = `pd.errors.ParserError`,
`MissingColumns` = the `ValueError` raised by the column check. -/
inductive LoadError where
  | SourceNotFound
  | EmptySource
  | MalformedSource
  | MissingColumns
deriving DecidableEq, Repr

/-- A parsed data frame: the header columns and the data rows. -/
structure Frame where
  columns : List String
  rows : List (List String)
deriving DecidableEq, Repr

/-- `pd.read_csv` on a source given as its list of records (each record a
list of fields).  Pandas raises `EmptyDataError` ("No columns to parse")
only when the source has no records at all; a source whose first record
is a header parses into a frame with those columns and the remaining
records as data rows — zero data rows is not an error.  A data row with
more fields than the header raises `ParserError`. -/
def read_csv (records : List (List String)) : Except LoadError Frame :=
  match records with
  | [] => Except.error LoadError.EmptySource
  | header :: rest =>
      if ∀ r ∈ rest, r.length ≤ header.length then
        Except.ok { columns := header, rows := rest }
      else
        Except.error LoadError.MalformedSource

/-- `required_columns = ["word", "translation", "definition",
"example_usage"]`. -/
def required_columns : List String :=
  ["word", "translation", "definition", "example_usage"]

/-- The column validation of `load_data` (lines 77–84):
`if not all(col in df.columns for col in required_columns): raise
ValueError(...)`, else `return df`. -/
def validate_frame (df : Frame) : Except LoadError Frame :=
  if ∀ c ∈ required_columns, c ∈ df.columns then
    Except.ok df
  else
    Except.error LoadError.MissingColumns

/-- `load_data(file, fallback_filename)`: reads the uploaded file when
present, otherwise the fallback path (`none` models a missing fallback
file, i.e. `FileNotFoundError`), then validates the columns.  Each
`except` branch of the Python function reports the corresponding
`LoadError` and yields no frame. -/
def load_data (file : Option (List (List String)))
    (fallback : Option (List (List String))) : Except LoadError Frame :=
  match file with
  | some records =>
      match read_csv records with
      | Except.error e => Except.error e
      | Except.ok df => validate_frame df
  | none =>
      match fallback with
      | none => Except.error LoadError.SourceNotFound
      | some records =>
          match read_csv records with
          | Except.error e => Except.error e
          | Except.ok df => validate_frame df

/-! ## Word-details display (`show_word_details`) -/

/-- `show_word_details(df, word)` displays the row
`df[df["word"] == word].iloc[0]`: the first row whose `word` column
equals the argument.  When no row matches (in particular when the Python
argument is `None`, which compares unequal to every string) `iloc[0]`
raises and nothing is displayed (`none`). -/
def show_word_details (df : List VocabEntry) (w : Option String) :
    Option VocabEntry :=
  df.find? (fun e => some e.word == w)

/-! ## Session state machine (`main`) -/

/-- The `st.session_state` fields used by the quiz. -/
structure SessionState where
  current_question : Option Question
  score : Nat
  question_number : Nat
  show_details : Bool
  user_answer : Option String
  result_message : String
deriving DecidableEq, Repr

/-- The initialization of `st.session_state` at session start (and the
state written by the Reset Quiz button). -/
def initialState : SessionState :=
  { current_question := none
    score := 0
    question_number := 1
    show_details := false
    user_answer := none
    result_message := "" }

/-- The message written on a correct answer. -/
def correct_message : String :=
  "<span style=\x27color:green\x27>Correct!</span>"

/-- The message written on an incorrect answer. -/
def incorrect_message (correct_word : String) : String :=
  "<span style=\x27color:red\x27>Incorrect. The correct word was: "
    ++ correct_word ++ "</span>"

/-- The `on_click_submit` callback: compares the radio selection
(`st.session_state.user_answer`) with the current question's
`correct_word`, increments the score on a match, writes the result
message, and sets `show_details` in both branches. -/
def on_click_submit (s : SessionState) (correct_word : String) :
    SessionState :=
  if s.user_answer = some correct_word then
    { s with score := s.score + 1
             result_message := correct_message
             show_details := true }
  else
    { s with result_message := incorrect_message correct_word
             show_details := true }

/-- The `on_next_question` callback: increments `question_number`, then
installs a freshly generated question and clears `show_details`,
`user_answer` and `result_message`.  When `generate_question` raises
(invalid randomness), only the mutations before the raising statement
have happened: `question_number` was already incremented. -/
def on_next_question (df : List VocabEntry) (s : SessionState)
    (pick : Nat) (samp perm : List Nat) : SessionState :=
  match generate_question df pick samp perm with
  | some q =>
      { s with question_number := s.question_number + 1
               current_question := some q
               show_details := false
               user_answer := none
               result_message := "" }
  | none => { s with question_number := s.question_number + 1 }

/-- The Start Quiz button body: generates a question, resets `score` to 0
and `question_number` to 1, clears `user_answer` and `result_message`.
When `generate_question` raises, the first statement already failed and
the state is unchanged. -/
def start_quiz (df : List VocabEntry) (s : SessionState)
    (pick : Nat) (samp perm : List Nat) : SessionState :=
  match generate_question df pick samp perm with
  | some q =>
      { s with current_question := some q
               score := 0
               question_number := 1
               user_answer := none
               result_message := "" }
  | none => s

/-- One user action of a rerender cycle.  The random draws consumed by
the handlers that call `generate_question` are carried on the action. -/
inductive Action where
  | start (pick : Nat) (samp perm : List Nat)
  | submit (answer : String)
  | next (pick : Nat) (samp perm : List Nat)
  | reset
deriving DecidableEq, Repr

/-- One rerender of `main` handling one user action, with the button
availability guards of the page: Start Quiz is rendered only when
`current_question is None and not show_details`; the answer radio and
Submit Answer whenever `current_question is not None` (also after an
answer was already submitted); Next Question additionally requires
`show_details`; Reset Quiz always.  Submitting records the radio
selection in `user_answer` (the radio widget's `key="user_answer"`) and
runs `on_click_submit`. -/
def step (df : List VocabEntry) (s : SessionState) : Action → SessionState
  | Action.start pick samp perm =>
      if s.current_question = none ∧ s.show_details = false then
        start_quiz df s pick samp perm
      else s
  | Action.submit answer =>
      match s.current_question with
      | some q => on_click_submit { s with user_answer := some answer } q.correct_word
      | none => s
  | Action.next pick samp perm =>
      if s.current_question ≠ none ∧ s.show_details = true then
        on_next_question df s pick samp perm
      else s
  | Action.reset => initialState

/-- Running a sequence of user actions. -/
def run (df : List VocabEntry) (s : SessionState) (acts : List Action) :
    SessionState :=
  acts.foldl (step df) s

/-- The session states reachable from a fresh session. -/
inductive Reachable (df : List VocabEntry) : SessionState → Prop where
  | init : Reachable df initialState
  | succ {s : SessionState} (h : Reachable df s) (a : Action) :
      Reachable df (step df s a)

/-- The word-details block of `main` (lines 201–207): when
`show_details` is set, `show_word_details` is called with the correct
word if the recorded answer matches it, and with the recorded answer
otherwise.  Yields the `VocabEntry` whose fields are displayed. -/
def render_details (df : List VocabEntry) (s : SessionState) :
    Option VocabEntry :=
  match s.current_question with
  | none => none
  | some q =>
      if s.show_details = true then
        show_word_details df
          (if s.user_answer = some q.correct_word then some q.correct_word
           else s.user_answer)
      else none

/-- A concrete four-row table with pairwise-distinct words. -/
def dfEx4 : List VocabEntry :=
  [{ word := "apple", translation := "t1", definition := "d1", example_usage := "e1" },
   { word := "orange", translation := "t2", definition := "d2", example_usage := "e2" },
   { word := "pear", translation := "t3", definition := "d3", example_usage := "e3" },
   { word := "plum", translation := "t4", definition := "d4", example_usage := "e4" }]

/-- A concrete three-row table. -/
def dfEx3 : List VocabEntry :=
  [{ word := "apple", translation := "t1", definition := "d1", example_usage := "e1" },
   { word := "orange", translation := "t2", definition := "d2", example_usage := "e2" },
   { word := "pear", translation := "t3", definition := "d3", example_usage := "e3" }]

end VocabQuiz

namespace VocabQuiz

/-! ## Helper lemmas -/

lemma generate_question_some {df : List VocabEntry} {pick : Nat}
    {samp perm : List Nat} {q : Question}
    (h : generate_question df pick samp perm = some q) :
    ∃ hp : pick < df.length, sampleOk df.length samp ∧ permOk perm ∧
      q = mkQuestion df ⟨pick, hp⟩ samp perm := by
  unfold generate_question at h
  split at h
  case isTrue hc =>
    exact ⟨hc.1, hc.2.1, hc.2.2, (Option.some.inj h).symm⟩
  case isFalse => exact absurd h (by simp)

lemma permOk_perm {perm : List Nat} (h : permOk perm) :
    perm.Perm [0, 1, 2, 3] := by
  obtain ⟨hlen, hnd, hlt⟩ := h
  have h4 : ([0, 1, 2, 3] : List Nat).Nodup := by decide
  apply List.perm_of_nodup_nodup_toFinset_eq hnd h4
  apply Finset.eq_of_subset_of_card_le
  · intro x hx
    rw [List.mem_toFinset] at hx ⊢
    have hx4 := hlt x hx
    simp only [List.mem_cons, List.mem_singleton]
    omega
  · rw [List.toFinset_card_of_nodup hnd, List.toFinset_card_of_nodup h4, hlen]
    decide

lemma map_getD_length_four {l : List String} (h : l.length = 4) :
    [0, 1, 2, 3].map (fun j => l.getD j "") = l := by
  rcases l with _ | ⟨a, _ | ⟨b, _ | ⟨c, _ | ⟨d, _ | ⟨e, t⟩⟩⟩⟩⟩ <;>
    simp_all [List.getD]

lemma mkQuestion_choices_perm {df : List VocabEntry} (pick : Fin df.length)
    {samp perm : List Nat} (hs : sampleOk df.length samp) (hp : permOk perm) :
    (mkQuestion df pick samp perm).choices.Perm
      ((df.get pick).word ::
        samp.map (fun j => (df.map (fun e => e.word)).getD j "")) := by
  have hlen : ((df.get pick).word ::
      samp.map (fun j => (df.map (fun e => e.word)).getD j "")).length = 4 := by
    simp [hs.1]
  have h2 := (permOk_perm hp).map
    (fun j => ((df.get pick).word ::
      samp.map (fun j => (df.map (fun e => e.word)).getD j "")).getD j "")
  rw [map_getD_length_four hlen] at h2
  exact h2

lemma getD_inj_of_nodup {l : List String} (hnd : l.Nodup) {i j : Nat}
    (hi : i < l.length) (hj : j < l.length)
    (h : l.getD i "" = l.getD j "") : i = j := by
  rw [List.getD_eq_getElem l "" hi, List.getD_eq_getElem l "" hj] at h
  exact hnd.getElem_inj_iff.mp h

end VocabQuiz

namespace VocabQuiz

/-! ## Concrete instances used by witnesses and counterexamples -/

/-- A concrete question over `dfEx4` with correct word "apple". -/
def qEx : Question :=
  { definition := "d1", correct_word := "apple",
    choices := ["apple", "orange", "pear", "plum"] }

/-- The question generated from `dfEx4` by the draws
`pick = 1`, `samp = [0, 2, 3]`, `perm = [3, 1, 0, 2]`. -/
def qEx2 : Question :=
  { definition := "d2", correct_word := "orange",
    choices := ["plum", "apple", "orange", "pear"] }

/-- A concrete Answering state: `qEx` shown, nothing submitted yet. -/
def sAnswering : SessionState :=
  { initialState with current_question := some qEx }

/-- A concrete Revealed state: `qEx` shown, an answer was submitted. -/
def sRevealed : SessionState :=
  { initialState with
      current_question := some qEx
      show_details := true
      user_answer := some "apple"
      score := 1 }

/-! ## Claim theorems: session transitions -/

/-- C3: in the Answering state (a question is shown and no answer was
submitted yet), submitting an answer increments the score by exactly 1
when the answer equals the current question's correct word, leaves the
score unchanged for any other answer, records the answer in
`user_answer`, and sets `show_details` in both cases. -/
theorem submit_updates_score (df : List VocabEntry) (s : SessionState)
    (q : Question) (ans : String) (hq : s.current_question = some q)
    (_hd : s.show_details = false) :
    ((ans = q.correct_word →
        (step df s (Action.submit ans)).score = s.score + 1) ∧
     (ans ≠ q.correct_word →
        (step df s (Action.submit ans)).score = s.score) ∧
     (step df s (Action.submit ans)).user_answer = some ans ∧
     (step df s (Action.submit ans)).show_details = true) := by
  refine ⟨?_, ?_, ?_, ?_⟩ <;>
    first
    | (intro h; simp [step, hq, on_click_submit, h])
    | (by_cases h : ans = q.correct_word <;>
        simp [step, hq, on_click_submit, h])

/-- Witness for C3: submitting "apple" in the concrete Answering state
whose question has correct word "apple". -/
theorem submit_updates_score_witness :
    (("apple" = qEx.correct_word →
        (step dfEx4 sAnswering (Action.submit "apple")).score =
          sAnswering.score + 1) ∧
     ("apple" ≠ qEx.correct_word →
        (step dfEx4 sAnswering (Action.submit "apple")).score =
          sAnswering.score) ∧
     (step dfEx4 sAnswering (Action.submit "apple")).user_answer =
        some "apple" ∧
     (step dfEx4 sAnswering (Action.submit "apple")).show_details = true) :=
  submit_updates_score dfEx4 sAnswering qEx "apple" rfl rfl

/-- C8: in the Revealed state, the Next Question action increments
`question_number` by exactly 1, installs the freshly generated question
as `current_question`, clears `show_details` and `user_answer`, and
leaves the score unchanged. -/
theorem next_question_transition (df : List VocabEntry) (s : SessionState)
    (q q' : Question) (pick : Nat) (samp perm : List Nat)
    (hq : s.current_question = some q) (hd : s.show_details = true)
    (hgen : generate_question df pick samp perm = some q') :
    ((step df s (Action.next pick samp perm)).question_number =
        s.question_number + 1 ∧
     (step df s (Action.next pick samp perm)).current_question = some q' ∧
     (step df s (Action.next pick samp perm)).show_details = false ∧
     (step df s (Action.next pick samp perm)).user_answer = none ∧
     (step df s (Action.next pick samp perm)).score = s.score) := by
  have hne : s.current_question ≠ none := by simp [hq]
  simp [step, hne, hd, on_next_question, hgen]

/-- Witness for C8: the concrete Revealed state, with the next question
generated from `dfEx4` by the draws `1`, `[0, 2, 3]`, `[3, 1, 0, 2]`. -/
theorem next_question_transition_witness :
    ((step dfEx4 sRevealed (Action.next 1 [0, 2, 3] [3, 1, 0, 2])).question_number =
        sRevealed.question_number + 1 ∧
     (step dfEx4 sRevealed (Action.next 1 [0, 2, 3] [3, 1, 0, 2])).current_question =
        some qEx2 ∧
     (step dfEx4 sRevealed (Action.next 1 [0, 2, 3] [3, 1, 0, 2])).show_details = false ∧
     (step dfEx4 sRevealed (Action.next 1 [0, 2, 3] [3, 1, 0, 2])).user_answer = none ∧
     (step dfEx4 sRevealed (Action.next 1 [0, 2, 3] [3, 1, 0, 2])).score =
        sRevealed.score) :=
  next_question_transition dfEx4 sRevealed qEx qEx2 1 [0, 2, 3] [3, 1, 0, 2]
    rfl rfl (by decide)

end VocabQuiz

namespace VocabQuiz

/-- C10: after a submit, the vocabulary entry whose details are displayed
is looked up as the first table row whose `word` field equals the
question's correct word when the submitted answer was correct, and the
user's own submitted answer otherwise; the found entry's `word` field
equals that lookup key. -/
theorem details_after_submit (df : List VocabEntry) (s : SessionState)
    (q : Question) (ans : String) (hq : s.current_question = some q) :
    (render_details df (step df s (Action.submit ans)) =
       df.find? (fun e =>
         e.word == (if ans = q.correct_word then q.correct_word else ans)) ∧
     ∀ e, df.find? (fun e =>
         e.word == (if ans = q.correct_word then q.correct_word else ans)) =
           some e →
       e.word = (if ans = q.correct_word then q.correct_word else ans)) := by
  constructor
  · by_cases h : ans = q.correct_word <;>
      simp [step, hq, on_click_submit, render_details, show_word_details, h]
  · intro e he
    have hp := List.find?_some he
    by_cases h : ans = q.correct_word <;> simp_all

/-- Witness for C10: submitting the wrong answer "pear" against `qEx`
(correct word "apple") in the concrete Answering state; the displayed
row is the "pear" row of the table. -/
theorem details_after_submit_witness :
    (render_details dfEx4 (step dfEx4 sAnswering (Action.submit "pear")) =
       dfEx4.find? (fun e =>
         e.word == (if "pear" = qEx.correct_word then qEx.correct_word else "pear")) ∧
     ∀ e, dfEx4.find? (fun e =>
         e.word == (if "pear" = qEx.correct_word then qEx.correct_word else "pear")) =
           some e →
       e.word = (if "pear" = qEx.correct_word then qEx.correct_word else "pear")) :=
  details_after_submit dfEx4 sAnswering qEx "pear" rfl

/-! ## Claim theorems: vocabulary loader -/

/-- A header with the four required columns plus two extra columns. -/
def wide_header : List String :=
  ["word", "translation", "definition", "example_usage", "level", "notes"]

/-- A data row for `wide_header`. -/
def wide_row : List String :=
  ["cat", "chat", "a pet", "the cat sat", "1", ""]

/-- C4 as stated is false: a source that parses as tabular data (it has
a header record) but contains zero data rows is not rejected — the
loader returns the empty table.  Concretely, a CSV holding only the
required header row loads as a frame with zero rows instead of failing
with `EmptySource`. -/
theorem header_only_source_loads :
    (load_data (some [required_columns]) none =
       Except.ok ⟨required_columns, []⟩ ∧
     load_data (some [required_columns]) none ≠
       Except.error LoadError.EmptySource) := by
  refine ⟨rfl, ?_⟩
  intro h
  rw [show load_data (some [required_columns]) none =
      Except.ok ⟨required_columns, []⟩ from rfl] at h
  exact Except.noConfusion h

/-- C4 amended: the loader fails with `EmptySource` exactly when the
source has no records at all (pandas `EmptyDataError`); a source with a
header but zero data rows is accepted, e.g. the header-only source made
of the required columns loads as the empty table. -/
theorem empty_source_iff_no_records (src : List (List String))
    (fb : Option (List (List String))) :
    ((load_data (some src) fb = Except.error LoadError.EmptySource ↔
        src = []) ∧
     load_data (some [required_columns]) fb =
       Except.ok ⟨required_columns, []⟩) := by
  refine ⟨?_, rfl⟩
  cases src with
  | nil => simp [load_data, read_csv]
  | cons header rest =>
      have h1 : read_csv (header :: rest) =
          if ∀ r ∈ rest, r.length ≤ header.length
          then Except.ok ⟨header, rest⟩
          else Except.error LoadError.MalformedSource := by
        simp only [read_csv]
      simp only [load_data, h1]
      by_cases hr : ∀ r ∈ rest, r.length ≤ header.length
      · rw [if_pos hr]
        simp only [validate_frame]
        by_cases hc : ∀ c ∈ required_columns, c ∈ header
        · rw [if_pos hc]; simp
        · rw [if_neg hc]; simp
      · rw [if_neg hr]; simp

/-- C6: for a source that parses (a header plus well-formed data rows),
the loader succeeds exactly when every required column is present in the
header — extra columns beyond the required four are ignored — and it
reports `MissingColumns` when some required column is absent. -/
theorem load_data_required_columns (header : List String)
    (rest : List (List String)) (fb : Option (List (List String)))
    (hragged : ∀ r ∈ rest, r.length ≤ header.length) :
    ((load_data (some (header :: rest)) fb =
        Except.ok ⟨header, rest⟩ ↔
      ∀ c ∈ required_columns, c ∈ header) ∧
     (¬ (∀ c ∈ required_columns, c ∈ header) →
        load_data (some (header :: rest)) fb =
          Except.error LoadError.MissingColumns)) := by
  have h1 : read_csv (header :: rest) = Except.ok ⟨header, rest⟩ := by
    simp only [read_csv]
    rw [if_pos hragged]
  have hbase : load_data (some (header :: rest)) fb =
      if ∀ c ∈ required_columns, c ∈ header
      then Except.ok ⟨header, rest⟩
      else Except.error LoadError.MissingColumns := by
    simp only [load_data, h1, validate_frame]
  by_cases hc : ∀ c ∈ required_columns, c ∈ header
  · rw [hbase, if_pos hc]
    exact ⟨⟨fun _ => hc, fun _ => rfl⟩, fun h => absurd hc h⟩
  · rw [hbase, if_neg hc]
    refine ⟨⟨fun h => absurd h (by simp), fun h => absurd h hc⟩, fun _ => rfl⟩

/-- Witness for C6: the wide header (required columns plus extras) with
one data row is accepted, the extra columns ignored. -/
theorem load_data_required_columns_witness :
    ((load_data (some (wide_header :: [wide_row])) none =
        Except.ok ⟨wide_header, [wide_row]⟩ ↔
      ∀ c ∈ required_columns, c ∈ wide_header) ∧
     (¬ (∀ c ∈ required_columns, c ∈ wide_header) →
        load_data (some (wide_header :: [wide_row])) none =
          Except.error LoadError.MissingColumns)) :=
  load_data_required_columns wide_header [wide_row] none (by decide)

/-! ## Claim theorems: question generator -/

/-- C5: whenever the generator succeeds on a table with at least 4 rows,
the returned question's correct word is among its choices and the
choices list has exactly 4 entries. -/
theorem generate_question_four_choices (df : List VocabEntry)
    (pick : Nat) (samp perm : List Nat) (q : Question)
    (_hlen : 4 ≤ df.length)
    (hgen : generate_question df pick samp perm = some q) :
    (q.correct_word ∈ q.choices ∧ q.choices.length = 4) := by
  obtain ⟨hp, hs, hpm, rfl⟩ := generate_question_some hgen
  have hperm := mkQuestion_choices_perm ⟨pick, hp⟩ hs hpm
  constructor
  · exact hperm.mem_iff.mpr (List.mem_cons_self _ _)
  · rw [hperm.length_eq]
    simp [hs.1]

/-- Witness for C5 on the four-row table with the draws `pick = 1`,
`samp = [0, 2, 3]`, `perm = [3, 1, 0, 2]`. -/
theorem generate_question_four_choices_witness :
    (qEx2.correct_word ∈ qEx2.choices ∧ qEx2.choices.length = 4) :=
  generate_question_four_choices dfEx4 1 [0, 2, 3] [3, 1, 0, 2] qEx2
    (by decide) (by decide)

/-- C1 as stated is false: on the four-row table whose words are
pairwise distinct, the draws `pick = 0`, `samp = [0, 1, 2]` (the
distractor sample may include the correct row itself) and the identity
shuffle produce the choices `["apple", "apple", "orange", "pear"]`,
which are not pairwise distinct. -/
theorem duplicate_choice_with_distinct_words :
    ((dfEx4.map (fun e => e.word)).Nodup ∧ 4 ≤ dfEx4.length ∧
     generate_question dfEx4 0 [0, 1, 2] [0, 1, 2, 3] =
       some { definition := "d1", correct_word := "apple",
              choices := ["apple", "apple", "orange", "pear"] } ∧
     ¬ (["apple", "apple", "orange", "pear"] : List String).Nodup) := by
  refine ⟨by decide, by decide, by decide, by decide⟩

/-- C1 amended: the three distractors are drawn at pairwise-distinct row
positions, but the sample does not exclude the correct row; over a table
with pairwise-distinct words, the four choices are pairwise distinct
exactly when the correct row's position is not among the three sampled
distractor positions. -/
theorem choices_nodup_iff_pick_not_sampled (df : List VocabEntry)
    (pick : Nat) (samp perm : List Nat) (q : Question)
    (hw : (df.map (fun e => e.word)).Nodup)
    (hgen : generate_question df pick samp perm = some q) :
    (q.choices.Nodup ↔ pick ∉ samp) := by
  obtain ⟨hp, hs, hpm, rfl⟩ := generate_question_some hgen
  rw [(mkQuestion_choices_perm ⟨pick, hp⟩ hs hpm).nodup_iff]
  obtain ⟨hsl, hsn, hsb⟩ := hs
  have hwlen : (df.map (fun e => e.word)).length = df.length := by simp
  have hinj : ∀ i, i < df.length → ∀ j, j < df.length →
      (df.map (fun e => e.word)).getD i "" =
        (df.map (fun e => e.word)).getD j "" → i = j := by
    intro i hi j hj hij
    exact getD_inj_of_nodup hw (hwlen ▸ hi) (hwlen ▸ hj) hij
  have hhead : (df.get ⟨pick, hp⟩).word =
      (df.map (fun e => e.word)).getD pick "" := by
    rw [List.getD_eq_getElem _ "" (hwlen ▸ hp)]
    simp
  have hdis : (samp.map (fun j =>
      (df.map (fun e => e.word)).getD j "")).Nodup := by
    refine List.Nodup.map_on ?_ hsn
    intro x hx y hy hxy
    exact hinj x (hsb x hx) y (hsb y hy) hxy
  rw [List.nodup_cons]
  simp only [hdis, and_true]
  rw [hhead]
  constructor
  · intro hno hmem
    exact hno (List.mem_map.mpr ⟨pick, hmem, rfl⟩)
  · intro hno hmem
    obtain ⟨j, hj, hjeq⟩ := List.mem_map.mp hmem
    have := hinj j (hsb j hj) pick hp hjeq
    exact hno (this ▸ hj)

/-- Witness for the amended C1: on the four-row table with distinct
words, `pick = 1 ∉ samp = [0, 2, 3]`, and indeed the generated choices
are pairwise distinct. -/
theorem choices_nodup_iff_pick_not_sampled_witness :
    (qEx2.choices.Nodup ↔ (1 : Nat) ∉ ([0, 2, 3] : List Nat)) :=
  choices_nodup_iff_pick_not_sampled dfEx4 1 [0, 2, 3] [3, 1, 0, 2] qEx2
    (by decide) (by decide)

/-- C2 as stated is false: the three-row table has fewer than 4 rows,
yet the generator succeeds (there is no `InsufficientVocabulary` guard
in the code; `random.sample(words, 3)` only needs 3 rows). -/
theorem three_row_table_generates :
    (dfEx3.length < 4 ∧
     (generate_question dfEx3 0 [0, 1, 2] [0, 1, 2, 3]).isSome = true) := by
  refine ⟨by decide, by decide⟩

/-- C2 amended: question generation on a table fails exactly when the
table has fewer than 3 rows — `df.sample(1)` needs a row and
`random.sample(words, 3)` needs 3 rows, and neither failure is a named
`InsufficientVocabulary` error — and succeeds for every table with at
least 3 rows (hence for all tables with at least 4 rows). -/
theorem generate_question_threshold (df : List VocabEntry) :
    ((∃ pick samp perm,
        (generate_question df pick samp perm).isSome = true) ↔
      3 ≤ df.length) := by
  constructor
  · rintro ⟨pick, samp, perm, h⟩
    unfold generate_question at h
    split at h
    case isTrue hc =>
      obtain ⟨hp, ⟨hsl, hsn, hsb⟩, hpm⟩ := hc
      have h1 : samp.toFinset.card = 3 := by
        rw [List.toFinset_card_of_nodup hsn, hsl]
      have h2 : samp.toFinset ⊆ Finset.range df.length := by
        intro x hx
        rw [List.mem_toFinset] at hx
        exact Finset.mem_range.mpr (hsb x hx)
      have h3 := Finset.card_le_card h2
      rw [h1, Finset.card_range] at h3
      exact h3
    case isFalse => simp at h
  · intro h
    refine ⟨0, [0, 1, 2], [0, 1, 2, 3], ?_⟩
    have hc : 0 < df.length ∧ sampleOk df.length [0, 1, 2] ∧
        permOk [0, 1, 2, 3] := by
      refine ⟨by omega, ⟨rfl, by decide, ?_⟩, by decide⟩
      intro j hj
      simp only [List.mem_cons, List.not_mem_nil, or_false] at hj
      omega
    unfold generate_question
    rw [dif_pos hc]
    rfl

end VocabQuiz

namespace VocabQuiz

/-! ## Helper lemmas: explicit transition equations -/

lemma step_submit_some (df : List VocabEntry) (s : SessionState)
    (q : Question) (ans : String) (hq : s.current_question = some q) :
    step df s (Action.submit ans) =
      on_click_submit { s with user_answer := some ans } q.correct_word := by
  simp [step, hq]

lemma on_click_submit_correct (s : SessionState) (w : String)
    (h : s.user_answer = some w) :
    on_click_submit s w =
      { s with score := s.score + 1
               result_message := correct_message
               show_details := true } := by
  simp [on_click_submit, h]

lemma on_click_submit_wrong (s : SessionState) (w : String)
    (h : s.user_answer ≠ some w) :
    on_click_submit s w =
      { s with result_message := incorrect_message w
               show_details := true } := by
  simp [on_click_submit, h]

lemma on_next_question_gen (df : List VocabEntry) (s : SessionState)
    (pick : Nat) (samp perm : List Nat) (q : Question)
    (hgen : generate_question df pick samp perm = some q) :
    on_next_question df s pick samp perm =
      { s with question_number := s.question_number + 1
               current_question := some q
               show_details := false
               user_answer := none
               result_message := "" } := by
  simp [on_next_question, hgen]

lemma on_next_question_fail (df : List VocabEntry) (s : SessionState)
    (pick : Nat) (samp perm : List Nat)
    (hgen : generate_question df pick samp perm = none) :
    on_next_question df s pick samp perm =
      { s with question_number := s.question_number + 1 } := by
  simp [on_next_question, hgen]

lemma start_quiz_gen (df : List VocabEntry) (s : SessionState)
    (pick : Nat) (samp perm : List Nat) (q : Question)
    (hgen : generate_question df pick samp perm = some q) :
    start_quiz df s pick samp perm =
      { s with current_question := some q
               score := 0
               question_number := 1
               user_answer := none
               result_message := "" } := by
  simp [start_quiz, hgen]

lemma start_quiz_fail (df : List VocabEntry) (s : SessionState)
    (pick : Nat) (samp perm : List Nat)
    (hgen : generate_question df pick samp perm = none) :
    start_quiz df s pick samp perm = s := by
  simp [start_quiz, hgen]

/-- Reachability invariant: whenever no question is current, the
counters still hold their initial values (the only ways to clear
`current_question` are session start and Reset Quiz, which both zero the
counters). -/
lemma reachable_inv {df : List VocabEntry} {s : SessionState}
    (h : Reachable df s) :
    s.current_question = none → s.score = 0 ∧ s.question_number = 1 := by
  induction h with
  | init => intro _; exact ⟨rfl, rfl⟩
  | @succ s h a ih =>
      cases a with
      | start pick samp perm =>
          by_cases hg : s.current_question = none ∧ s.show_details = false
          · cases hgen : generate_question df pick samp perm with
            | some q =>
                rw [step, if_pos hg, start_quiz_gen df s pick samp perm q hgen]
                intro habs
                simp at habs
            | none =>
                rw [step, if_pos hg, start_quiz_fail df s pick samp perm hgen]
                exact ih
          · rw [step, if_neg hg]; exact ih
      | submit ans =>
          cases hcq : s.current_question with
          | none => rw [step]; simp only [hcq]; exact fun _ => ih hcq
          | some q =>
              rw [step_submit_some df s q ans hcq]
              by_cases hans : ans = q.correct_word
              · rw [on_click_submit_correct _ _ (by simp [hans])]
                intro habs
                simp [hcq] at habs
              · rw [on_click_submit_wrong _ _ (by simp [hans])]
                intro habs
                simp [hcq] at habs
      | next pick samp perm =>
          by_cases hg : s.current_question ≠ none ∧ s.show_details = true
          · cases hgen : generate_question df pick samp perm with
            | some q =>
                rw [step, if_pos hg, on_next_question_gen df s pick samp perm q hgen]
                intro habs
                simp at habs
            | none =>
                rw [step, if_pos hg, on_next_question_fail df s pick samp perm hgen]
                intro habs
                simp at habs
                exact absurd habs hg.1
          · rw [step, if_neg hg]; exact ih
      | reset => intro _; exact ⟨rfl, rfl⟩

/-- One-step behaviour of the two counters for every non-reset action,
on any state satisfying the reachability invariant. -/
lemma step_counters (df : List VocabEntry) {s : SessionState}
    (hinv : s.current_question = none → s.score = 0 ∧ s.question_number = 1)
    (a : Action) (ha : a ≠ Action.reset) :
    (s.score ≤ (step df s a).score ∧
     s.question_number ≤ (step df s a).question_number ∧
     ((step df s a).score ≠ s.score →
        ∃ ans q, a = Action.submit ans ∧ s.current_question = some q ∧
          ans = q.correct_word ∧ (step df s a).score = s.score + 1) ∧
     ((step df s a).question_number ≠ s.question_number →
        (∃ pick samp perm, a = Action.next pick samp perm) ∧
        (step df s a).question_number = s.question_number + 1)) := by
  cases a with
  | start pick samp perm =>
      by_cases hg : s.current_question = none ∧ s.show_details = false
      · obtain ⟨hsc, hqn⟩ := hinv hg.1
        cases hgen : generate_question df pick samp perm with
        | some q =>
            rw [step, if_pos hg, start_quiz_gen df s pick samp perm q hgen]
            refine ⟨by simp [hsc], by simp [hqn], ?_, ?_⟩
            · intro habs; exact absurd (by simp [hsc]) habs
            · intro habs; exact absurd (by simp [hqn]) habs
        | none =>
            rw [step, if_pos hg, start_quiz_fail df s pick samp perm hgen]
            exact ⟨le_refl _, le_refl _, fun habs => absurd rfl habs,
              fun habs => absurd rfl habs⟩
      · rw [step, if_neg hg]
        exact ⟨le_refl _, le_refl _, fun habs => absurd rfl habs,
          fun habs => absurd rfl habs⟩
  | submit ans =>
      cases hcq : s.current_question with
      | none =>
          rw [step]; simp only [hcq]
          exact ⟨le_refl _, le_refl _, fun habs => absurd rfl habs,
            fun habs => absurd rfl habs⟩
      | some q =>
          rw [step_submit_some df s q ans hcq]
          by_cases hans : ans = q.correct_word
          · rw [on_click_submit_correct _ _ (by simp [hans])]
            refine ⟨by simp, by simp, ?_, ?_⟩
            · intro _
              exact ⟨ans, q, rfl, rfl, hans, by simp⟩
            · intro habs; exact absurd (by simp) habs
          · rw [on_click_submit_wrong _ _ (by simp [hans])]
            exact ⟨by simp, by simp, fun habs => absurd (by simp) habs,
              fun habs => absurd (by simp) habs⟩
  | next pick samp perm =>
      by_cases hg : s.current_question ≠ none ∧ s.show_details = true
      · cases hgen : generate_question df pick samp perm with
        | some q =>
            rw [step, if_pos hg, on_next_question_gen df s pick samp perm q hgen]
            refine ⟨by simp, by simp, ?_, ?_⟩
            · intro habs; exact absurd (by simp) habs
            · intro _
              exact ⟨⟨pick, samp, perm, rfl⟩, by simp⟩
        | none =>
            rw [step, if_pos hg, on_next_question_fail df s pick samp perm hgen]
            refine ⟨by simp, by simp, ?_, ?_⟩
            · intro habs; exact absurd (by simp) habs
            · intro _
              exact ⟨⟨pick, samp, perm, rfl⟩, by simp⟩
      · rw [step, if_neg hg]
        exact ⟨le_refl _, le_refl _, fun habs => absurd rfl habs,
          fun habs => absurd rfl habs⟩
  | reset => exact absurd rfl ha

/-- Monotonicity of the counters along any reset-free action sequence
from a reachable state. -/
lemma run_counters_mono {df : List VocabEntry} {s : SessionState}
    (h : Reachable df s) (acts : List Action)
    (hnr : ∀ a ∈ acts, a ≠ Action.reset) :
    s.score ≤ (run df s acts).score ∧
      s.question_number ≤ (run df s acts).question_number := by
  induction acts generalizing s with
  | nil => exact ⟨le_refl _, le_refl _⟩
  | cons a acts ih =>
      have h1 := step_counters df (reachable_inv h) a
        (hnr a (List.mem_cons_self _ _))
      have h2 := ih (h.succ a) (fun b hb => hnr b (List.mem_cons_of_mem _ hb))
      exact ⟨le_trans h1.1 h2.1, le_trans h1.2.1 h2.2⟩

end VocabQuiz

namespace VocabQuiz

/-- C7: within a session, from any reachable state, `score` and
`question_number` are monotone non-decreasing along every reset-free
action sequence; a one-step `score` change can only be a submit of the
current question's correct word (and is then exactly +1); a one-step
`question_number` change can only be a Next Question action (and is then
exactly +1); and the Reset Quiz action returns the state — both counters
included — to its initial values. -/
theorem counters_monotone (df : List VocabEntry) (s : SessionState)
    (h : Reachable df s) (acts : List Action)
    (hnr : ∀ b ∈ acts, b ≠ Action.reset)
    (a : Action) (ha : a ≠ Action.reset) :
    (s.score ≤ (run df s acts).score ∧
     s.question_number ≤ (run df s acts).question_number ∧
     ((step df s a).score ≠ s.score →
        ∃ ans q, a = Action.submit ans ∧ s.current_question = some q ∧
          ans = q.correct_word ∧ (step df s a).score = s.score + 1) ∧
     ((step df s a).question_number ≠ s.question_number →
        (∃ pick samp perm, a = Action.next pick samp perm) ∧
        (step df s a).question_number = s.question_number + 1) ∧
     step df s Action.reset = initialState) := by
  have h1 := run_counters_mono h acts hnr
  have h2 := step_counters df (reachable_inv h) a ha
  exact ⟨h1.1, h1.2, h2.2.2.1, h2.2.2.2, rfl⟩

/-- Witness for C7: the initial state on the four-row table, the
reset-free sequence start-then-submit, and a submit step. -/
theorem counters_monotone_witness :
    (initialState.score ≤
       (run dfEx4 initialState
         [Action.start 0 [1, 2, 3] [0, 1, 2, 3],
          Action.submit "apple"]).score ∧
     initialState.question_number ≤
       (run dfEx4 initialState
         [Action.start 0 [1, 2, 3] [0, 1, 2, 3],
          Action.submit "apple"]).question_number ∧
     ((step dfEx4 initialState (Action.submit "apple")).score ≠
        initialState.score →
        ∃ ans q, Action.submit "apple" = Action.submit ans ∧
          initialState.current_question = some q ∧
          ans = q.correct_word ∧
          (step dfEx4 initialState (Action.submit "apple")).score =
            initialState.score + 1) ∧
     ((step dfEx4 initialState (Action.submit "apple")).question_number ≠
        initialState.question_number →
        (∃ pick samp perm,
           Action.submit "apple" = Action.next pick samp perm) ∧
        (step dfEx4 initialState (Action.submit "apple")).question_number =
          initialState.question_number + 1) ∧
     step dfEx4 initialState Action.reset = initialState) :=
  counters_monotone dfEx4 initialState Reachable.init
    [Action.start 0 [1, 2, 3] [0, 1, 2, 3], Action.submit "apple"]
    (by decide) (Action.submit "apple") (by decide)

/-- C9: in the Revealed state the Submit Answer button remains enabled
(the page renders it whenever a question is current, also after an
answer was submitted), and each further submit of the correct word
increments the score by 1 again while staying in the Revealed state; a
reachable state therefore exists whose score exceeds the number of
questions asked (`question_number - 1`). -/
theorem revealed_submit_increments (df : List VocabEntry)
    (s : SessionState) (q : Question) (hq : s.current_question = some q)
    (_hd : s.show_details = true) :
    ((step df s (Action.submit q.correct_word)).score = s.score + 1 ∧
     (step df s (Action.submit q.correct_word)).show_details = true ∧
     ∃ s', Reachable dfEx4 s' ∧ s'.question_number - 1 < s'.score) := by
  refine ⟨?_, ?_, ?_⟩
  · rw [step_submit_some df s q _ hq, on_click_submit_correct _ _ (by simp)]
  · rw [step_submit_some df s q _ hq, on_click_submit_correct _ _ (by simp)]
  · refine ⟨step dfEx4 (step dfEx4 (step dfEx4 initialState
        (Action.start 0 [1, 2, 3] [0, 1, 2, 3])) (Action.submit "apple"))
        (Action.submit "apple"),
      ((Reachable.init.succ _).succ _).succ _, by decide⟩

/-- Witness for C9: the concrete Revealed state `sRevealed` with its
question `qEx`. -/
theorem revealed_submit_increments_witness :
    ((step dfEx4 sRevealed (Action.submit qEx.correct_word)).score =
        sRevealed.score + 1 ∧
     (step dfEx4 sRevealed (Action.submit qEx.correct_word)).show_details =
        true ∧
     ∃ s', Reachable dfEx4 s' ∧ s'.question_number - 1 < s'.score) :=
  revealed_submit_increments dfEx4 sRevealed qEx rfl rfl

end VocabQuiz
